import Mathlib

/-!
Shallow embedding of the `hdt-rdfjs-dataset` boundary layer.

The embedding follows the current sources:
* `wasm-loader.ts` (class `HdtWasm`: `load`, `loadHdt`, `queryTriples`,
  `countTriples`, `sizeInBytes`, `getLastError`, `getRustDebugLog`, `isLoaded`),
* `dataset.ts` (functions `structuredTermToRdfJs`, `structuredTripleToQuad`,
  classes `HdtMatchResult` and `HdtDatasetCore`),
* `types.ts` (`StructuredRdfTerm`, `StructuredTriple`, `HdtWasmExports`).

The guest WASM module is an external collaborator; it is modelled as an
oracle (`Guest`) supplying the behaviour of the exported functions
`hdt_alloc`, `hdt_free`, `hdt_load`, `hdt_query_triples`, `hdt_count_triples`,
`hdt_size_in_bytes` and the optional diagnostics entry points.  Every call the
host makes into the guest is recorded in an event trace, so that claims about
allocation/free discipline and about which guest functions are invoked can be
stated as properties of the trace.  A guest function that can trap is modelled
with `Except Unit`: `.error ()` is a trap, which propagates as a thrown JS
exception exactly as in the host code (which has no try/finally).
-/

/-- Structured RDF term as delivered by the guest (`types.ts`,
`StructuredRdfTerm`): tagged by `termType`, a Literal optionally carries a
`language` and/or a `datatype` string. -/
inductive StructuredRdfTerm where
  | namedNode (value : String)
  | blankNode (value : String)
  | literal (value : String) (language : Option String) (datatype : Option String)
deriving DecidableEq, Repr

/-- The `value` field of a structured term. -/
def StructuredRdfTerm.value : StructuredRdfTerm → String
  | .namedNode v => v
  | .blankNode v => v
  | .literal v _ _ => v

/-- Structured triple as delivered by the guest (`types.ts`, `StructuredTriple`). -/
structure StructuredTriple where
  subject : StructuredRdfTerm
  predicate : StructuredRdfTerm
  object : StructuredRdfTerm
deriving DecidableEq, Repr

/-- Host-side RDF/JS term (the terms produced by `@rdfjs/data-model`'s
factory).  A literal records the language and the datatype IRI that were
explicitly passed to `factory.literal`. -/
inductive RdfTerm where
  | namedNode (value : String)
  | blankNode (value : String)
  | literal (value : String) (language : Option String) (explicitDatatype : Option String)
  | defaultGraph
deriving DecidableEq, Repr

/-- The `value` attribute of an RDF/JS term (the default graph's value is
the empty string). -/
def RdfTerm.value : RdfTerm → String
  | .namedNode v => v
  | .blankNode v => v
  | .literal v _ _ => v
  | .defaultGraph => ""

/-- RDF/JS `Term.equals`: structural equality of term type and fields. -/
def RdfTerm.equals (a b : RdfTerm) : Bool := a = b

namespace factory

/-- `factory.namedNode(value)` -/
def namedNode (v : String) : RdfTerm := RdfTerm.namedNode v

/-- `factory.blankNode(value)` -/
def blankNode (v : String) : RdfTerm := RdfTerm.blankNode v

/-- `factory.literal(value)` — plain literal, nothing explicit. -/
def literalPlain (v : String) : RdfTerm := RdfTerm.literal v none none

/-- `factory.literal(value, language)` — language-tagged literal, no explicit
datatype argument. -/
def literalWithLanguage (v lang : String) : RdfTerm := RdfTerm.literal v (some lang) none

/-- `factory.literal(value, namedNode(datatype))` — typed literal, no
language. -/
def literalWithDatatype (v : String) (dt : RdfTerm) : RdfTerm :=
  RdfTerm.literal v none (some dt.value)

/-- `factory.defaultGraph()` -/
def defaultGraph : RdfTerm := RdfTerm.defaultGraph

end factory

/-- An RDF/JS quad: four term components (the facade only ever builds quads
in the default graph). -/
structure Quad where
  subject : RdfTerm
  predicate : RdfTerm
  object : RdfTerm
  graph : RdfTerm
deriving DecidableEq, Repr

/-- JavaScript truthiness of a `string | null | undefined` value: `null`,
`undefined` and the empty string are falsy. -/
def strTruthy : Option String → Bool
  | none => false
  | some s => !(s = "")

/-- Byte length of `TextEncoder.encode(s)` (UTF-8). -/
def utf8Len (s : String) : Nat := s.utf8ByteSize

/-- Byte length of `x ? textEncoder.encode(x) : new Uint8Array(0)` for a
pattern filter `x : string | null | undefined`. -/
def encodeFilter : Option String → Nat
  | none => 0
  | some s => if s = "" then 0 else utf8Len s

/-- Argument record of one `hdt_query_triples` invocation. -/
structure QueryCall where
  subjectPtr : Nat
  subjectLen : Nat
  predicatePtr : Nat
  predicateLen : Nat
  objectPtr : Nat
  objectLen : Nat
  outputPtr : Nat
  outputCapacity : Nat
deriving DecidableEq, Repr

/-- Argument record of one `hdt_count_triples` invocation. -/
structure CountCall where
  subjectPtr : Nat
  subjectLen : Nat
  predicatePtr : Nat
  predicateLen : Nat
  objectPtr : Nat
  objectLen : Nat
deriving DecidableEq, Repr

/-- One host→guest interaction, recorded in order of occurrence. -/
inductive Event where
  | alloc (ptr len : Nat)
  | free (ptr len : Nat)
  | callQuery (c : QueryCall)
  | callCount (c : CountCall)
  | callLoad (ptr len : Nat)
  | callGetLastError (ptr cap : Nat)
  | callGetDebugLog (ptr cap : Nat)
  | callSizeInBytes
  | callInitLogging
deriving DecidableEq, Repr

/-- Behaviour of the guest module's exports, as an oracle.  `alloc` is a
function of the allocation sequence number (within the bridge's lifetime) and
the requested size, returning the pointer (`0` = allocation failure).
`query`, `count` and `load` may trap (`.error ()`), which the host observes as
a thrown exception.  `payload` gives the decode+parse outcome of the bytes the
guest wrote for a given query call (`.error ()` = `JSON.parse` throws). -/
structure Guest where
  alloc : Nat → Nat → Nat
  query : QueryCall → Except Unit Int
  payload : QueryCall → Except Unit (List StructuredTriple)
  count : CountCall → Except Unit Int
  loadData : Nat → Nat → Except Unit Int
  sizeInBytesResult : Int
  hasGetLastError : Bool
  lastErrorLen : Nat → Nat → Int
  lastErrorText : String
  hasGetDebugLog : Bool
  debugLogLen : Nat → Nat → Int
  debugLogText : String
  hasInitLogging : Bool

/-- A thrown JavaScript exception as observed by callers of the host code. -/
inductive JsError where
  | hostError (msg : String)
  | guestTrap
  | parseError
deriving DecidableEq, Repr

/-- The `HdtWasm` instance state: `exports` and `memory` are `null` until
`load()` succeeds.  The memory handle is an opaque identity token. -/
structure HdtWasm where
  exports : Option Guest
  memory : Option Nat

/-- `HdtWasm.isLoaded()`: both exports and memory present. -/
def HdtWasm.isLoaded (w : HdtWasm) : Bool :=
  w.exports.isSome && w.memory.isSome

/-- Outcome of one host-side operation: the ordered trace of guest
interactions, the allocator-sequence counter after the call, and either the
returned value or the thrown exception. -/
structure OpResult (α : Type) where
  trace : List Event
  kOut : Nat
  result : Except JsError α
deriving Repr

/-- The event of a conditional allocation `cond ? hdt_alloc(len) : 0n`:
present exactly when the allocation happened. -/
def allocEvt (cond : Bool) (ptr len : Nat) : List Event :=
  if cond then [Event.alloc ptr len] else []

/-- `if (cond) hdt_free(ptr, len)` — the events of a conditional free. -/
def freeEvt (cond : Bool) (ptr len : Nat) : List Event :=
  if cond then [Event.free ptr len] else []

/-- `HdtWasm.queryTriples(subject?, predicate?, object?)` (`wasm-loader.ts`):
encode the truthy filters, allocate a guest buffer for each (absent/empty
filter → null pointer, zero length), allocate the 1 MiB output buffer, invoke
`hdt_query_triples`, free the input buffers, then on negative status free the
output buffer and throw `Query failed with code: …`; otherwise decode the
written bytes, free the output buffer and `JSON.parse` the result. -/
def HdtWasm.queryTriples (w : HdtWasm) (k : Nat)
    (subject predicate object : Option String) :
    OpResult (List StructuredTriple) :=
  match w.exports, w.memory with
  | some g, some _ =>
    let sLen := encodeFilter subject
    let pLen := encodeFilter predicate
    let oLen := encodeFilter object
    let k1 := if strTruthy subject then k + 1 else k
    let k2 := if strTruthy predicate then k1 + 1 else k1
    let k3 := if strTruthy object then k2 + 1 else k2
    let sPtr := if strTruthy subject then g.alloc k sLen else 0
    let pPtr := if strTruthy predicate then g.alloc k1 pLen else 0
    let oPtr := if strTruthy object then g.alloc k2 oLen else 0
    let outputCapacity := 1024 * 1024
    let outPtr := g.alloc k3 outputCapacity
    let call : QueryCall :=
      ⟨sPtr, sLen, pPtr, pLen, oPtr, oLen, outPtr, outputCapacity⟩
    let trPre := allocEvt (strTruthy subject) sPtr sLen
      ++ allocEvt (strTruthy predicate) pPtr pLen
      ++ allocEvt (strTruthy object) oPtr oLen
      ++ [Event.alloc outPtr outputCapacity, Event.callQuery call]
    match g.query call with
    | .error _ => { trace := trPre, kOut := k3 + 1, result := .error .guestTrap }
    | .ok resultLen =>
      let trFreed := trPre ++ freeEvt (strTruthy subject) sPtr sLen
        ++ freeEvt (strTruthy predicate) pPtr pLen
        ++ freeEvt (strTruthy object) oPtr oLen
      if resultLen < 0 then
        { trace := trFreed ++ [Event.free outPtr outputCapacity],
          kOut := k3 + 1,
          result := .error (.hostError ("Query failed with code: " ++ toString resultLen)) }
      else
        match g.payload call with
        | .error _ =>
          { trace := trFreed ++ [Event.free outPtr outputCapacity],
            kOut := k3 + 1, result := .error .parseError }
        | .ok triples =>
          { trace := trFreed ++ [Event.free outPtr outputCapacity],
            kOut := k3 + 1, result := .ok triples }
  | _, _ => { trace := [], kOut := k, result := .error (.hostError "WASM not loaded") }

/-- `HdtWasm.countTriples(subject?, predicate?, object?)` (`wasm-loader.ts`):
same input marshaling as the query path, invoke `hdt_count_triples` (no
output buffer), free the input buffers and return `Number(count)`. -/
def HdtWasm.countTriples (w : HdtWasm) (k : Nat)
    (subject predicate object : Option String) : OpResult Int :=
  match w.exports, w.memory with
  | some g, some _ =>
    let sLen := encodeFilter subject
    let pLen := encodeFilter predicate
    let oLen := encodeFilter object
    let k1 := if strTruthy subject then k + 1 else k
    let k2 := if strTruthy predicate then k1 + 1 else k1
    let k3 := if strTruthy object then k2 + 1 else k2
    let sPtr := if strTruthy subject then g.alloc k sLen else 0
    let pPtr := if strTruthy predicate then g.alloc k1 pLen else 0
    let oPtr := if strTruthy object then g.alloc k2 oLen else 0
    let call : CountCall := ⟨sPtr, sLen, pPtr, pLen, oPtr, oLen⟩
    let trPre := allocEvt (strTruthy subject) sPtr sLen
      ++ allocEvt (strTruthy predicate) pPtr pLen
      ++ allocEvt (strTruthy object) oPtr oLen
      ++ [Event.callCount call]
    match g.count call with
    | .error _ => { trace := trPre, kOut := k3, result := .error .guestTrap }
    | .ok c =>
      { trace := trPre ++ freeEvt (strTruthy subject) sPtr sLen
          ++ freeEvt (strTruthy predicate) pPtr pLen
          ++ freeEvt (strTruthy object) oPtr oLen,
        kOut := k3, result := .ok c }
  | _, _ => { trace := [], kOut := k, result := .error (.hostError "WASM not loaded") }

/-- `HdtWasm.getLastError()` (`wasm-loader.ts`): if the optional
`hdt_get_last_error` export is absent (or the bridge is not loaded) return
`''`; otherwise allocate a 1 KiB scratch buffer, call the export, decode the
reported bytes (`0` meaning nothing available) and free the buffer.  Returns
the events, the next allocation counter and the message. -/
def HdtWasm.getLastError (w : HdtWasm) (k : Nat) : List Event × Nat × String :=
  match w.exports, w.memory with
  | some g, some _ =>
    if g.hasGetLastError then
      let errorPtr := g.alloc k 1024
      let errorLen := g.lastErrorLen errorPtr 1024
      ([Event.alloc errorPtr 1024, Event.callGetLastError errorPtr 1024,
        Event.free errorPtr 1024], k + 1,
       if errorLen > 0 then g.lastErrorText else "")
    else ([], k, "")
  | _, _ => ([], k, "")

/-- `HdtWasm.getRustDebugLog()` (`wasm-loader.ts`): same protocol as
`getLastError` but with the optional `hdt_get_debug_log` export and a 4 KiB
scratch buffer. -/
def HdtWasm.getRustDebugLog (w : HdtWasm) (k : Nat) : List Event × Nat × String :=
  match w.exports, w.memory with
  | some g, some _ =>
    if g.hasGetDebugLog then
      let logPtr := g.alloc k 4096
      let logLen := g.debugLogLen logPtr 4096
      ([Event.alloc logPtr 4096, Event.callGetDebugLog logPtr 4096,
        Event.free logPtr 4096], k + 1,
       if logLen > 0 then g.debugLogText else "")
    else ([], k, "")
  | _, _ => ([], k, "")

/-- `HdtWasm.loadHdt(data)` (`wasm-loader.ts`): allocate a guest buffer of
the data's length (`throw 'Failed to allocate memory'` on a null pointer),
copy the bytes, call `hdt_load`, retrieve the debug log when that capability
is present, free the input buffer, and on a non-zero status throw
`Failed to load HDT: …` enriched with `getLastError()`. -/
def HdtWasm.loadHdt (w : HdtWasm) (k : Nat) (dataLen : Nat) : OpResult Unit :=
  match w.exports, w.memory with
  | some g, some _ =>
    let ptr := g.alloc k dataLen
    if ptr = 0 then
      { trace := [Event.alloc ptr dataLen], kOut := k + 1,
        result := .error (.hostError "Failed to allocate memory") }
    else
      match g.loadData ptr dataLen with
      | .error _ =>
        { trace := [Event.alloc ptr dataLen, Event.callLoad ptr dataLen],
          kOut := k + 1, result := .error .guestTrap }
      | .ok res =>
        let trLog := if g.hasGetDebugLog then (w.getRustDebugLog (k + 1)).1 else []
        let kLog := if g.hasGetDebugLog then (w.getRustDebugLog (k + 1)).2.1 else k + 1
        let trFreed := [Event.alloc ptr dataLen, Event.callLoad ptr dataLen]
          ++ trLog ++ [Event.free ptr dataLen]
        if res ≠ 0 then
          let msg := (w.getLastError kLog).2.2
          { trace := trFreed ++ (w.getLastError kLog).1,
            kOut := (w.getLastError kLog).2.1,
            result := .error (.hostError ("Failed to load HDT: "
              ++ (if msg = "" then "Error code " ++ toString res else msg))) }
        else { trace := trFreed, kOut := kLog, result := .ok () }
  | _, _ =>
    { trace := [], kOut := k,
      result := .error (.hostError "WASM not loaded. Call load() first.") }

/-- `HdtWasm.sizeInBytes()` (`wasm-loader.ts`): requires `exports` only;
returns `hdt_size_in_bytes()` converted to a number. -/
def HdtWasm.sizeInBytes (w : HdtWasm) (k : Nat) : OpResult Int :=
  match w.exports with
  | some g =>
    { trace := [Event.callSizeInBytes], kOut := k, result := .ok g.sizeInBytesResult }
  | none => { trace := [], kOut := k, result := .error (.hostError "WASM not loaded") }

/-- A WASM module as produced by `WebAssembly.compile`: its export surface is
the guest behaviour plus (possibly) a self-exported linear memory, identified
by an opaque token. -/
structure WasmModule where
  memoryExport : Option Nat
  guest : Guest

/-- The import object handed to `WebAssembly.instantiate`: the bridge may or
may not supply a host-created memory under `env.memory`. -/
structure ImportObject where
  envMemory : Option Nat
deriving DecidableEq, Repr

/-- Transcript of `HdtWasm.load(options)` after the module bytes are
compiled: which import object was passed to `WebAssembly.instantiate`, the
resulting bridge state, and the startup events. -/
structure LoadTranscript where
  importObject : ImportObject
  instanceState : HdtWasm
  events : List Event

/-- `HdtWasm.load(options)` (`wasm-loader.ts`), from the point where the
module is compiled: instantiate with `{ env: {} }` (the module exports its
own memory — the bridge creates none), set `this.exports` to the instance's
exports, set `this.memory` to the exported memory, and invoke
`hdt_init_logging` once if that export is present. -/
def HdtWasm.load (m : WasmModule) : LoadTranscript :=
  let imports : ImportObject := { envMemory := none }
  let exps := m.guest
  { importObject := imports,
    instanceState := { exports := some exps, memory := m.memoryExport },
    events := if exps.hasInitLogging then [Event.callInitLogging] else [] }

/-- `structuredTermToRdfJs` (`dataset.ts`), Literal datatype cascade: the
`else if (term.datatype) … else …` tail of the switch's Literal case. -/
def literalFromDatatypeField (v : String) (dt : Option String) : RdfTerm :=
  match dt with
  | some d =>
    if d = "" then factory.literalPlain v
    else factory.literalWithDatatype v (factory.namedNode d)
  | none => factory.literalPlain v

/-- `structuredTermToRdfJs(term)` (`dataset.ts`): NamedNode maps to
`factory.namedNode`; BlankNode strips the first two characters
(`value.substring(2)`, the `_:` scheme prefix) and maps to
`factory.blankNode`; a Literal maps to `factory.literal` with its language if
truthy, else with its datatype as a named node if truthy, else plain. -/
def structuredTermToRdfJs : StructuredRdfTerm → RdfTerm
  | .namedNode v => factory.namedNode v
  | .blankNode v => factory.blankNode (v.drop 2)
  | .literal v (some lang) dt =>
    if lang = "" then literalFromDatatypeField v dt
    else factory.literalWithLanguage v lang
  | .literal v none dt => literalFromDatatypeField v dt

/-- `structuredTripleToQuad(triple)` (`dataset.ts`): convert the three terms
and tag with the default graph. -/
def structuredTripleToQuad (t : StructuredTriple) : Quad :=
  { subject := structuredTermToRdfJs t.subject,
    predicate := structuredTermToRdfJs t.predicate,
    object := structuredTermToRdfJs t.object,
    graph := factory.defaultGraph }

/-- `term?.value || null` — collapse an absent term or an empty `value`
string to `null` before crossing the boundary (`dataset.ts`). -/
def termFilter : Option RdfTerm → Option String
  | none => none
  | some t => if t.value = "" then none else some t.value

/-- `graph && !graph.equals(factory.defaultGraph())` — the facade's
non-default-graph short-circuit condition (`dataset.ts`). -/
def graphTruthyNonDefault : Option RdfTerm → Bool
  | none => false
  | some g => !(g.equals factory.defaultGraph)

/-- The exact three-field value comparison used by the `has` scans in
`dataset.ts`. -/
def tripleMatchesQuad (t : StructuredTriple) (q : Quad) : Bool :=
  t.subject.value = q.subject.value && t.predicate.value = q.predicate.value
    && t.object.value = q.object.value

/-- `HdtMatchResult` (`dataset.ts`): an in-memory wrapper around the decoded
triples of one query. -/
structure HdtMatchResult where
  triples : List StructuredTriple
deriving DecidableEq, Repr

/-- `HdtMatchResult.size` -/
def HdtMatchResult.size (r : HdtMatchResult) : Nat := r.triples.length

/-- `HdtMatchResult.add()` — throws unconditionally. -/
def HdtMatchResult.add (_ : HdtMatchResult) : Except JsError Unit :=
  .error (.hostError "HDT is read-only - cannot add quads")

/-- `HdtMatchResult.delete()` — throws unconditionally. -/
def HdtMatchResult.delete (_ : HdtMatchResult) : Except JsError Unit :=
  .error (.hostError "HDT is read-only - cannot delete quads")

/-- `HdtMatchResult.has(quad)` — scan for an exact three-field value match. -/
def HdtMatchResult.has (r : HdtMatchResult) (q : Quad) : Bool :=
  r.triples.any fun t => tripleMatchesQuad t q

/-- `HdtMatchResult.match(...)` — in-memory filtering for nested matches. -/
def HdtMatchResult.matchOp (r : HdtMatchResult)
    (subject predicate object graph : Option RdfTerm) : HdtMatchResult :=
  if graphTruthyNonDefault graph then ⟨[]⟩
  else
    ⟨r.triples.filter fun t =>
      (match subject with | some s => t.subject.value = s.value | none => true)
      && (match predicate with | some p => t.predicate.value = p.value | none => true)
      && (match object with | some o => t.object.value = o.value | none => true)⟩

/-- The `HdtDatasetCore` facade state (`dataset.ts`): the bridge and the
memoized total size (`_size : number | null`). -/
structure HdtDatasetCore where
  wasm : HdtWasm
  sizeCache : Option Int

/-- The `HdtDatasetCore` constructor: requires `wasm.isLoaded()`. -/
def HdtDatasetCore.create (w : HdtWasm) : Except JsError HdtDatasetCore :=
  if w.isLoaded then .ok { wasm := w, sizeCache := none }
  else .error (.hostError "WASM module must be loaded before creating dataset")

/-- Outcome of one facade operation: guest-interaction trace, updated
allocation counter, the facade state afterwards, and the value or thrown
exception. -/
structure FacadeResult (α : Type) where
  trace : List Event
  kOut : Nat
  state : HdtDatasetCore
  result : Except JsError α

/-- `get size()` (`dataset.ts`): if `_size` is `null`, compute it via the
count path with the unconstrained pattern and memoize; otherwise return the
cached value with no guest interaction. -/
def HdtDatasetCore.size (d : HdtDatasetCore) (k : Nat) : FacadeResult Int :=
  match d.sizeCache with
  | some n => { trace := [], kOut := k, state := d, result := .ok n }
  | none =>
    let r := d.wasm.countTriples k none none none
    match r.result with
    | .ok c =>
      { trace := r.trace, kOut := r.kOut,
        state := { d with sizeCache := some c }, result := .ok c }
    | .error e => { trace := r.trace, kOut := r.kOut, state := d, result := .error e }

/-- `HdtDatasetCore.add()` — throws unconditionally, touching nothing. -/
def HdtDatasetCore.add (d : HdtDatasetCore) (k : Nat) : FacadeResult Unit :=
  { trace := [], kOut := k, state := d,
    result := .error (.hostError "HDT is read-only - cannot add quads") }

/-- `HdtDatasetCore.delete()` — throws unconditionally, touching nothing. -/
def HdtDatasetCore.delete (d : HdtDatasetCore) (k : Nat) : FacadeResult Unit :=
  { trace := [], kOut := k, state := d,
    result := .error (.hostError "HDT is read-only - cannot delete quads") }

/-- `HdtDatasetCore.has(quad)` (`dataset.ts`): query with the quad's three
values as the pattern (each collapsed by `|| null`), then scan the results
for an exact three-field value match. -/
def HdtDatasetCore.has (d : HdtDatasetCore) (k : Nat) (q : Quad) : FacadeResult Bool :=
  let r := d.wasm.queryTriples k (termFilter (some q.subject))
    (termFilter (some q.predicate)) (termFilter (some q.object))
  match r.result with
  | .ok ts =>
    { trace := r.trace, kOut := r.kOut, state := d,
      result := .ok (ts.any fun t => tripleMatchesQuad t q) }
  | .error e => { trace := r.trace, kOut := r.kOut, state := d, result := .error e }

/-- `HdtDatasetCore.match(subject?, predicate?, object?, graph?)`
(`dataset.ts`): a truthy non-default graph short-circuits to an empty
`HdtMatchResult` with no guest interaction; otherwise the three filters are
collapsed by `|| null` and the query path is delegated to. -/
def HdtDatasetCore.matchOp (d : HdtDatasetCore) (k : Nat)
    (subject predicate object graph : Option RdfTerm) : FacadeResult HdtMatchResult :=
  if graphTruthyNonDefault graph then
    { trace := [], kOut := k, state := d, result := .ok ⟨[]⟩ }
  else
    let r := d.wasm.queryTriples k (termFilter subject) (termFilter predicate)
      (termFilter object)
    match r.result with
    | .ok ts => { trace := r.trace, kOut := r.kOut, state := d, result := .ok ⟨ts⟩ }
    | .error e => { trace := r.trace, kOut := r.kOut, state := d, result := .error e }

/-- `[Symbol.iterator]()` (`dataset.ts`): unconstrained query, each decoded
triple converted by `structuredTripleToQuad`. -/
def HdtDatasetCore.iterate (d : HdtDatasetCore) (k : Nat) : FacadeResult (List Quad) :=
  let r := d.wasm.queryTriples k none none none
  match r.result with
  | .ok ts =>
    { trace := r.trace, kOut := r.kOut, state := d,
      result := .ok (ts.map structuredTripleToQuad) }
  | .error e => { trace := r.trace, kOut := r.kOut, state := d, result := .error e }

/-- `HdtDatasetCore.queryRaw(subject?, predicate?, object?)` (`dataset.ts`):
delegate the raw strings to the query path, bypassing term conversion. -/
def HdtDatasetCore.queryRaw (d : HdtDatasetCore) (k : Nat)
    (subject predicate object : Option String) : FacadeResult (List StructuredTriple) :=
  let r := d.wasm.queryTriples k subject predicate object
  { trace := r.trace, kOut := r.kOut, state := d, result := r.result }

/-- `HdtDatasetCore.sizeInBytes()` (`dataset.ts`): delegate to the bridge. -/
def HdtDatasetCore.sizeInBytes (d : HdtDatasetCore) (k : Nat) : FacadeResult Int :=
  let r := d.wasm.sizeInBytes k
  { trace := r.trace, kOut := r.kOut, state := d, result := r.result }

/-- `HdtDatasetCore.countMatches(subject?, predicate?, object?)`
(`dataset.ts`): collapse the three filters by `|| null` and delegate to the
count path. -/
def HdtDatasetCore.countMatches (d : HdtDatasetCore) (k : Nat)
    (subject predicate object : Option RdfTerm) : FacadeResult Int :=
  let r := d.wasm.countTriples k (termFilter subject) (termFilter predicate)
    (termFilter object)
  { trace := r.trace, kOut := r.kOut, state := d, result := r.result }

/-- `HdtDatasetCore.close()` (`dataset.ts`): sets `_size = null`; nothing
else happens (no guest interaction, no state flag). -/
def HdtDatasetCore.close (d : HdtDatasetCore) (k : Nat) : FacadeResult Unit :=
  { trace := [], kOut := k, state := { d with sizeCache := none }, result := .ok () }

/-- Buffer discipline of a trace: every successfully allocated buffer
(non-null pointer) is freed exactly as many times as it was allocated —
i.e. exactly once per allocation. -/
def freedExactlyOnce (tr : List Event) : Prop :=
  ∀ p l, p ≠ 0 → List.count (Event.alloc p l) tr = List.count (Event.free p l) tr

/-- Whether an event is an `hdt_count_triples` invocation. -/
def isCountCallEvt : Event → Bool
  | .callCount _ => true
  | _ => false

/-- Whether an event is an `hdt_query_triples` invocation. -/
def isQueryCallEvt : Event → Bool
  | .callQuery _ => true
  | _ => false

/-- Number of `hdt_count_triples` invocations recorded in a trace. -/
def numCountCalls (tr : List Event) : Nat := tr.countP isCountCallEvt

/-- Number of `hdt_query_triples` invocations recorded in a trace. -/
def numQueryCalls (tr : List Event) : Nat := tr.countP isQueryCallEvt

/-- Decidable equality for `Except` outcomes, so concrete runs of the model
can be checked by `decide`. -/
instance exceptDecEq {e a : Type} [DecidableEq e] [DecidableEq a] :
    DecidableEq (Except e a) := fun x y =>
  match x, y with
  | .ok u, .ok v => if h : u = v then .isTrue (by rw [h]) else .isFalse (by simp [h])
  | .error u, .error v => if h : u = v then .isTrue (by rw [h]) else .isFalse (by simp [h])
  | .ok _, .error _ => .isFalse (by simp)
  | .error _, .ok _ => .isFalse (by simp)

/-- The `hdt_query_triples` invocations recorded in a trace, in order. -/
def queryCallsOf (tr : List Event) : List QueryCall :=
  tr.filterMap fun e => match e with | .callQuery c => some c | _ => none

/-- The `hdt_count_triples` invocations recorded in a trace, in order. -/
def countCallsOf (tr : List Event) : List CountCall :=
  tr.filterMap fun e => match e with | .callCount c => some c | _ => none

/-- A concrete structured triple used to exercise the model. -/
def tripleABC : StructuredTriple :=
  ⟨.namedNode "http://example.org/a", .namedNode "http://example.org/b",
   .namedNode "http://example.org/c"⟩

/-- The RDF/JS quad with the same three term values as `tripleABC`. -/
def quadABC : Quad :=
  ⟨RdfTerm.namedNode "http://example.org/a", RdfTerm.namedNode "http://example.org/b",
   RdfTerm.namedNode "http://example.org/c", RdfTerm.defaultGraph⟩

/-- A concrete well-behaved guest: allocation number `i` returns pointer
`1000 + i`, queries succeed writing an empty JSON array, counts return 42,
loads succeed, no optional capability is exported. -/
def guestOk : Guest where
  alloc := fun i _ => 1000 + i
  query := fun _ => .ok 2
  payload := fun _ => .ok []
  count := fun _ => .ok 42
  loadData := fun _ _ => .ok 0
  sizeInBytesResult := 777
  hasGetLastError := false
  lastErrorLen := fun _ _ => 0
  lastErrorText := ""
  hasGetDebugLog := false
  debugLogLen := fun _ _ => 0
  debugLogText := ""
  hasInitLogging := false

/-- A guest whose `hdt_query_triples`, `hdt_count_triples` and `hdt_load`
all trap. -/
def guestTrapping : Guest :=
  { guestOk with
    query := fun _ => .error ()
    count := fun _ => .error ()
    loadData := fun _ _ => .error () }

/-- A guest whose allocator always fails (returns the null pointer) while
every other export behaves. -/
def guestNullAlloc : Guest := { guestOk with alloc := fun _ _ => 0 }

/-- A guest holding exactly one triple: queries succeed with payload
`[tripleABC]` and counts return 1. -/
def guestData : Guest :=
  { guestOk with
    query := fun _ => .ok 10
    payload := fun _ => .ok [tripleABC]
    count := fun _ => .ok 1 }

/-- A loaded facade over `guestOk` with no cached size. -/
def dsFresh : HdtDatasetCore := ⟨⟨some guestOk, some 1⟩, none⟩

/-- A loaded facade over `guestOk` whose size cache currently holds 5. -/
def dsCached : HdtDatasetCore := ⟨⟨some guestOk, some 1⟩, some 5⟩

/-- A loaded facade over `guestData` with no cached size. -/
def dsData : HdtDatasetCore := ⟨⟨some guestData, some 1⟩, none⟩

/-! ## General lemmas about the marshaling traces -/

/-- Counting an event in a one-element trace. -/
theorem count_singleton_event (a b : Event) : List.count a [b] = if b = a then 1 else 0 := by
  simp [List.count_cons]

/-- Every non-trapping run of the query path frees each allocated buffer
exactly once. -/
theorem queryTriples_freed (g : Guest) (mid k : Nat) (s p o : Option String)
    (hq : ∀ c, g.query c ≠ Except.error ()) :
    freedExactlyOnce ((HdtWasm.mk (some g) (some mid)).queryTriples k s p o).trace := by
  intro ptr len _
  simp only [HdtWasm.queryTriples]
  split
  case _ heq => exact absurd heq (hq _)
  case _ n heq =>
    split
    · simp [allocEvt, freeEvt, List.count_append, List.count_cons, List.count_nil,
        apply_ite (List.count (Event.alloc ptr len)),
        apply_ite (List.count (Event.free ptr len)),
        count_singleton_event]
    · split <;>
        simp [allocEvt, freeEvt, List.count_append, List.count_cons, List.count_nil,
          apply_ite (List.count (Event.alloc ptr len)),
          apply_ite (List.count (Event.free ptr len)),
          count_singleton_event]

/-- Every non-trapping run of the count path frees each allocated buffer
exactly once. -/
theorem countTriples_freed (g : Guest) (mid k : Nat) (s p o : Option String)
    (hc : ∀ c, g.count c ≠ Except.error ()) :
    freedExactlyOnce ((HdtWasm.mk (some g) (some mid)).countTriples k s p o).trace := by
  intro ptr len _
  simp only [HdtWasm.countTriples]
  split
  case _ heq => exact absurd heq (hc _)
  case _ n heq =>
    simp [allocEvt, freeEvt, List.count_append, List.count_cons, List.count_nil,
      apply_ite (List.count (Event.alloc ptr len)),
      apply_ite (List.count (Event.free ptr len)),
      count_singleton_event]

/-- The error-channel retrieval allocates and frees its scratch buffer in a
balanced way. -/
theorem getLastError_balanced (w : HdtWasm) (k ptr len : Nat) :
    List.count (Event.alloc ptr len) (w.getLastError k).1
      = List.count (Event.free ptr len) (w.getLastError k).1 := by
  rcases w with ⟨e, m⟩
  cases e with
  | none => simp [HdtWasm.getLastError]
  | some g =>
    cases m with
    | none => simp [HdtWasm.getLastError]
    | some mid =>
      by_cases hcap : g.hasGetLastError <;>
        simp [HdtWasm.getLastError, hcap, List.count_cons, List.count_nil]

/-- The debug-log retrieval allocates and frees its scratch buffer in a
balanced way. -/
theorem getRustDebugLog_balanced (w : HdtWasm) (k ptr len : Nat) :
    List.count (Event.alloc ptr len) (w.getRustDebugLog k).1
      = List.count (Event.free ptr len) (w.getRustDebugLog k).1 := by
  rcases w with ⟨e, m⟩
  cases e with
  | none => simp [HdtWasm.getRustDebugLog]
  | some g =>
    cases m with
    | none => simp [HdtWasm.getRustDebugLog]
    | some mid =>
      by_cases hcap : g.hasGetDebugLog <;>
        simp [HdtWasm.getRustDebugLog, hcap, List.count_cons, List.count_nil]

/-- Every non-trapping run of the load path frees each allocated buffer
exactly once (a failed input allocation allocates nothing). -/
theorem loadHdt_freed (g : Guest) (mid k dataLen : Nat)
    (hl : ∀ a b, g.loadData a b ≠ Except.error ()) :
    freedExactlyOnce ((HdtWasm.mk (some g) (some mid)).loadHdt k dataLen).trace := by
  intro ptr len hptr
  have h1 := getRustDebugLog_balanced (HdtWasm.mk (some g) (some mid)) (k + 1) ptr len
  simp only [HdtWasm.loadHdt]
  split
  case _ h0 =>
    simp [count_singleton_event, List.count_nil]
    intro h0' _
    exact absurd (h0 ▸ h0'.symm) hptr
  case _ h0 =>
    split
    case _ heq => exact absurd heq (hl _ _)
    case _ res heq =>
      split
      case _ hres =>
        have h2 := getLastError_balanced (HdtWasm.mk (some g) (some mid))
          (if g.hasGetDebugLog then
            ((HdtWasm.mk (some g) (some mid)).getRustDebugLog (k + 1)).2.1
          else k + 1) ptr len
        simp [List.count_append, List.count_cons, List.count_nil, count_singleton_event,
          apply_ite (List.count (Event.alloc ptr len)),
          apply_ite (List.count (Event.free ptr len))] at h1 h2 ⊢
        split_ifs at h1 h2 ⊢ <;> omega
      case _ hres =>
        simp [List.count_append, List.count_cons, List.count_nil, count_singleton_event,
          apply_ite (List.count (Event.alloc ptr len)),
          apply_ite (List.count (Event.free ptr len))] at h1 ⊢
        split_ifs at h1 ⊢ <;> omega

/-- The query path invokes `hdt_query_triples` exactly once, on every
branch (trap included). -/
theorem queryTriples_one_call (g : Guest) (mid k : Nat) (s p o : Option String) :
    numQueryCalls ((HdtWasm.mk (some g) (some mid)).queryTriples k s p o).trace = 1 := by
  simp only [HdtWasm.queryTriples]
  split
  · simp [numQueryCalls, allocEvt, freeEvt, List.countP_append, List.countP_cons,
      apply_ite (List.countP isQueryCallEvt), isQueryCallEvt]
  · split
    · simp [numQueryCalls, allocEvt, freeEvt, List.countP_append, List.countP_cons,
        apply_ite (List.countP isQueryCallEvt), isQueryCallEvt]
    · split <;>
        simp [numQueryCalls, allocEvt, freeEvt, List.countP_append, List.countP_cons,
          apply_ite (List.countP isQueryCallEvt), isQueryCallEvt]

/-- The count path invokes `hdt_count_triples` exactly once, on every
branch (trap included). -/
theorem countTriples_one_call (g : Guest) (mid k : Nat) (s p o : Option String) :
    numCountCalls ((HdtWasm.mk (some g) (some mid)).countTriples k s p o).trace = 1 := by
  simp only [HdtWasm.countTriples]
  split <;>
    simp [numCountCalls, allocEvt, freeEvt, List.countP_append, List.countP_cons,
      apply_ite (List.countP isCountCallEvt), isCountCallEvt]

/-- `size` on an empty cache, when the guest count succeeds: performs the
unconstrained count, memoizes it and returns it. -/
theorem size_uncached (w : HdtWasm) (k : Nat) (c : Int)
    (hok : (w.countTriples k none none none).result = Except.ok c) :
    (HdtDatasetCore.mk w none).size k =
      { trace := (w.countTriples k none none none).trace,
        kOut := (w.countTriples k none none none).kOut,
        state := ⟨w, some c⟩, result := Except.ok c } := by
  cases hres : (w.countTriples k none none none).result with
  | ok x =>
    rw [hres] at hok
    injection hok with h
    subst h
    unfold HdtDatasetCore.size
    simp [hres]
  | error e => rw [hres] at hok; cases hok

/-- The trace of `size` on an empty cache is the count path's trace,
whatever the outcome. -/
theorem size_trace_uncached (w : HdtWasm) (k : Nat) :
    ((HdtDatasetCore.mk w none).size k).trace = (w.countTriples k none none none).trace := by
  unfold HdtDatasetCore.size
  cases hres : (w.countTriples k none none none).result with
  | ok x => simp [hres]
  | error e => simp [hres]

/-- `has` never changes the facade state. -/
theorem has_state (d : HdtDatasetCore) (k : Nat) (q : Quad) : (d.has k q).state = d := by
  unfold HdtDatasetCore.has
  cases hres : (d.wasm.queryTriples k (termFilter (some q.subject))
      (termFilter (some q.predicate)) (termFilter (some q.object))).result <;> simp [hres]

/-- `match` never changes the facade state. -/
theorem matchOp_state (d : HdtDatasetCore) (k : Nat) (s p o gr : Option RdfTerm) :
    (d.matchOp k s p o gr).state = d := by
  unfold HdtDatasetCore.matchOp
  split
  · rfl
  · cases hres : (d.wasm.queryTriples k (termFilter s) (termFilter p)
        (termFilter o)).result <;> simp [hres]

/-- Iteration never changes the facade state. -/
theorem iterate_state (d : HdtDatasetCore) (k : Nat) : (d.iterate k).state = d := by
  unfold HdtDatasetCore.iterate
  cases hres : (d.wasm.queryTriples k none none none).result <;> simp [hres]

/-! ## Claims -/

/-- C1 (counterexample): the claim "every guest buffer allocated during the
call is freed exactly once … on every exit path … and thrown exception" is
false on the code: when `hdt_query_triples` traps, the `hdt_free` calls that
follow it are skipped (there is no try/finally), so the subject input buffer
allocated at pointer 1000 and the 1 MiB output buffer are never freed. -/
theorem c1_trap_leaks_buffers :
    ¬ freedExactlyOnce
      ((HdtWasm.mk (some guestTrapping) (some 1)).queryTriples 0 (some "s") none none).trace := by
  intro h
  exact absurd (h 1000 1 (by decide)) (by decide)

/-- C1 (amended): for every boundary-crossing operation (`queryTriples`,
`countTriples`, `loadHdt`), every guest buffer allocated during the call is
freed exactly once on every exit path on which the invoked guest function
returns — normal return and guest-reported error status alike — but not when
the guest function itself throws. -/
theorem c1_nontrap_paths_free_exactly_once
    (g : Guest) (mid k dataLen : Nat) (s p o : Option String)
    (hq : ∀ c, g.query c ≠ Except.error ())
    (hc : ∀ c, g.count c ≠ Except.error ())
    (hl : ∀ a b, g.loadData a b ≠ Except.error ()) :
    freedExactlyOnce ((HdtWasm.mk (some g) (some mid)).queryTriples k s p o).trace
    ∧ freedExactlyOnce ((HdtWasm.mk (some g) (some mid)).countTriples k s p o).trace
    ∧ freedExactlyOnce ((HdtWasm.mk (some g) (some mid)).loadHdt k dataLen).trace :=
  ⟨queryTriples_freed g mid k s p o hq, countTriples_freed g mid k s p o hc,
   loadHdt_freed g mid k dataLen hl⟩

/-- C1 (witness): the amended theorem applied to the concrete guest
`guestOk`, a constrained subject query and a 5-byte load. -/
theorem c1_nontrap_paths_free_exactly_once_witness :
    freedExactlyOnce ((HdtWasm.mk (some guestOk) (some 1)).queryTriples 0 (some "s") none none).trace
    ∧ freedExactlyOnce ((HdtWasm.mk (some guestOk) (some 1)).countTriples 0 (some "s") none none).trace
    ∧ freedExactlyOnce ((HdtWasm.mk (some guestOk) (some 1)).loadHdt 0 5).trace :=
  c1_nontrap_paths_free_exactly_once guestOk 1 0 5 (some "s") none none
    (fun _ h => by simp [guestOk] at h) (fun _ h => by simp [guestOk] at h)
    (fun _ _ h => by simp [guestOk] at h)

/-- C2: `load` instantiates the module with no host-provided memory import
(`env` contains no memory), and the memory handle the bridge uses afterwards
is exactly the module's own exported memory object. -/
theorem c2_module_owned_memory (m : WasmModule) :
    (HdtWasm.load m).importObject.envMemory = none
    ∧ (HdtWasm.load m).instanceState.memory = m.memoryExport :=
  ⟨rfl, rfl⟩

/-- C3 (counterexample): the claim "after `close()` every read operation
fails with a NotLoaded condition rather than returning data" is false on the
code: on a loaded facade whose size cache holds 5, `close()` followed by
`size` happily issues a fresh guest count call and returns its value 42. -/
theorem c3_read_after_close_returns_data :
    ((HdtDatasetCore.close dsCached 0).state.size 0).result = Except.ok 42
    ∧ ((HdtDatasetCore.close dsCached 0).state.size 0).result
        ≠ Except.error (JsError.hostError "WASM not loaded") := by
  constructor <;> decide

/-- C3 (amended): `close()` only clears the cached size: the resulting state
keeps the same bridge with an empty cache, no guest function is invoked, and
read operations after `close()` do not fail NotLoaded — they behave exactly
as on the same facade with an empty cache (there is no Closed state). -/
theorem c3_close_only_clears_cache (d : HdtDatasetCore) (k k' : Nat)
    (s p o : Option String) :
    (d.close k).state = { d with sizeCache := none }
    ∧ (d.close k).trace = []
    ∧ (d.close k).result = Except.ok ()
    ∧ ((d.close k).state.queryRaw k' s p o).result = (d.queryRaw k' s p o).result :=
  ⟨rfl, rfl, rfl, rfl⟩

/-- C4 (counterexample): the claim "a zero pointer returned by the guest
allocator causes the operation to fail with a fatal AllocationFailure before
the guest function is invoked" is false on the code for the query path: with
an always-null allocator, `queryTriples` on a non-empty subject writes into
offset 0, still invokes `hdt_query_triples` (with null pointers for both the
input and the output buffer) and returns the parsed result instead of
failing. -/
theorem c4_null_alloc_not_checked_in_query :
    ((HdtWasm.mk (some guestNullAlloc) (some 1)).queryTriples 0 (some "s") none none).result
      = Except.ok []
    ∧ numQueryCalls
        ((HdtWasm.mk (some guestNullAlloc) (some 1)).queryTriples 0 (some "s") none none).trace
      = 1 := by
  constructor <;> decide

/-- C4 (amended): only `loadHdt` checks the allocator's return: a null
pointer there fails with `Failed to allocate memory` before `hdt_load` is
invoked (the trace stops at the failed allocation); `queryTriples` and
`countTriples` never check any allocation and always proceed to invoke the
guest function exactly once. -/
theorem c4_alloc_check_only_in_load
    (g : Guest) (mid k dataLen : Nat) (h0 : g.alloc k dataLen = 0) :
    ((HdtWasm.mk (some g) (some mid)).loadHdt k dataLen).result
      = Except.error (JsError.hostError "Failed to allocate memory")
    ∧ ((HdtWasm.mk (some g) (some mid)).loadHdt k dataLen).trace = [Event.alloc 0 dataLen]
    ∧ (∀ s p o, numQueryCalls ((HdtWasm.mk (some g) (some mid)).queryTriples k s p o).trace = 1)
    ∧ (∀ s p o, numCountCalls ((HdtWasm.mk (some g) (some mid)).countTriples k s p o).trace = 1) := by
  refine ⟨?_, ?_, fun s p o => queryTriples_one_call g mid k s p o,
    fun s p o => countTriples_one_call g mid k s p o⟩ <;>
    simp [HdtWasm.loadHdt, h0]

/-- C4 (witness): the amended theorem at the concrete always-null allocator
and a 5-byte load. -/
theorem c4_alloc_check_only_in_load_witness :
    ((HdtWasm.mk (some guestNullAlloc) (some 1)).loadHdt 0 5).result
      = Except.error (JsError.hostError "Failed to allocate memory")
    ∧ ((HdtWasm.mk (some guestNullAlloc) (some 1)).loadHdt 0 5).trace = [Event.alloc 0 5]
    ∧ (∀ s p o, numQueryCalls ((HdtWasm.mk (some guestNullAlloc) (some 1)).queryTriples 0 s p o).trace = 1)
    ∧ (∀ s p o, numCountCalls ((HdtWasm.mk (some guestNullAlloc) (some 1)).countTriples 0 s p o).trace = 1) :=
  c4_alloc_check_only_in_load guestNullAlloc 1 0 5 (by decide)

/-- C5: on a fresh facade whose unconstrained guest count succeeds with `c`:
the first `size` access issues exactly one guest count call, returns `c` and
memoizes it; the second access is served from the cache with no guest
interaction; `close()` followed by `size` issues one fresh guest count call;
and no other operation ever touches the cached size. -/
theorem c5_size_cache_idempotence (g : Guest) (mid k : Nat) (c : Int)
    (hok : ((HdtWasm.mk (some g) (some mid)).countTriples k none none none).result
      = Except.ok c) :
    numCountCalls ((HdtDatasetCore.mk (HdtWasm.mk (some g) (some mid)) none).size k).trace = 1
    ∧ ((HdtDatasetCore.mk (HdtWasm.mk (some g) (some mid)) none).size k).result = Except.ok c
    ∧ (∀ k', ((((HdtDatasetCore.mk (HdtWasm.mk (some g) (some mid)) none).size k).state).size k').trace = []
        ∧ ((((HdtDatasetCore.mk (HdtWasm.mk (some g) (some mid)) none).size k).state).size k').result
            = Except.ok c)
    ∧ (∀ k' k'', numCountCalls
        ((((((HdtDatasetCore.mk (HdtWasm.mk (some g) (some mid)) none).size k).state).close k').state).size k'').trace
      = 1)
    ∧ (∀ (d : HdtDatasetCore) (k' : Nat) (q : Quad), (d.has k' q).state.sizeCache = d.sizeCache)
    ∧ (∀ (d : HdtDatasetCore) (k' : Nat) (s p o gr : Option RdfTerm),
        (d.matchOp k' s p o gr).state.sizeCache = d.sizeCache)
    ∧ (∀ (d : HdtDatasetCore) (k' : Nat) (s p o : Option RdfTerm),
        (d.countMatches k' s p o).state.sizeCache = d.sizeCache)
    ∧ (∀ (d : HdtDatasetCore) (k' : Nat) (s p o : Option String),
        (d.queryRaw k' s p o).state.sizeCache = d.sizeCache)
    ∧ (∀ (d : HdtDatasetCore) (k' : Nat), (d.sizeInBytes k').state.sizeCache = d.sizeCache)
    ∧ (∀ (d : HdtDatasetCore) (k' : Nat), (d.iterate k').state.sizeCache = d.sizeCache)
    ∧ (∀ (d : HdtDatasetCore) (k' : Nat), (d.add k').state.sizeCache = d.sizeCache)
    ∧ (∀ (d : HdtDatasetCore) (k' : Nat), (d.delete k').state.sizeCache = d.sizeCache) := by
  have hs := size_uncached (HdtWasm.mk (some g) (some mid)) k c hok
  refine ⟨?_, ?_, ?_, ?_, fun d k' q => by rw [has_state],
    fun d k' s p o gr => by rw [matchOp_state], fun d k' s p o => rfl,
    fun d k' s p o => rfl, fun d k' => rfl, fun d k' => by rw [iterate_state],
    fun d k' => rfl, fun d k' => rfl⟩
  · rw [size_trace_uncached]
    exact countTriples_one_call g mid k none none none
  · rw [hs]
  · intro k'
    rw [hs]
    exact ⟨rfl, rfl⟩
  · intro k' k''
    rw [hs]
    show numCountCalls ((HdtDatasetCore.mk (HdtWasm.mk (some g) (some mid)) none).size k'').trace = 1
    rw [size_trace_uncached]
    exact countTriples_one_call g mid k'' none none none

/-- C5 (witness): the theorem at the concrete guest `guestOk`, whose
unconstrained count returns 42. -/
theorem c5_size_cache_idempotence_witness :
    numCountCalls ((HdtDatasetCore.mk (HdtWasm.mk (some guestOk) (some 1)) none).size 0).trace = 1
    ∧ ((HdtDatasetCore.mk (HdtWasm.mk (some guestOk) (some 1)) none).size 0).result = Except.ok 42 :=
  ⟨(c5_size_cache_idempotence guestOk 1 0 42 (by decide)).1,
   (c5_size_cache_idempotence guestOk 1 0 42 (by decide)).2.1⟩

/-- C6: `match` against any graph term other than the default graph returns
an empty result (size 0) and makes no guest interaction at all, for every
pattern. -/
theorem c6_nondefault_graph_short_circuit (d : HdtDatasetCore) (k : Nat)
    (s p o : Option RdfTerm) (g : RdfTerm) (h : g ≠ factory.defaultGraph) :
    (d.matchOp k s p o (some g)).result = Except.ok (HdtMatchResult.mk [])
    ∧ (HdtMatchResult.mk []).size = 0
    ∧ (d.matchOp k s p o (some g)).trace = []
    ∧ (d.matchOp k s p o (some g)).state = d
    ∧ (d.matchOp k s p o (some g)).kOut = k := by
  have hg : graphTruthyNonDefault (some g) = true := by
    simp only [graphTruthyNonDefault, RdfTerm.equals, Bool.not_eq_true']
    exact decide_eq_false h
  refine ⟨?_, rfl, ?_, ?_, ?_⟩ <;> simp [HdtDatasetCore.matchOp, hg]

/-- C6 (witness): the theorem at a concrete named-node graph term on the
concrete facade `dsFresh`. -/
theorem c6_nondefault_graph_short_circuit_witness :
    (dsFresh.matchOp 0 none none none (some (RdfTerm.namedNode "g"))).result
      = Except.ok (HdtMatchResult.mk [])
    ∧ (HdtMatchResult.mk []).size = 0
    ∧ (dsFresh.matchOp 0 none none none (some (RdfTerm.namedNode "g"))).trace = []
    ∧ (dsFresh.matchOp 0 none none none (some (RdfTerm.namedNode "g"))).state = dsFresh
    ∧ (dsFresh.matchOp 0 none none none (some (RdfTerm.namedNode "g"))).kOut = 0 :=
  c6_nondefault_graph_short_circuit dsFresh 0 none none none (RdfTerm.namedNode "g")
    (by decide)

/-- C7: `add` and `delete` — on the facade and on a match result alike —
always fail immediately with the read-only (Immutable) error, record no
guest interaction, leave the facade state untouched, and therefore never
alter what `size` subsequently returns. -/
theorem c7_mutations_immutable (d : HdtDatasetCore) (k : Nat) (r : HdtMatchResult) :
    (d.add k).result = Except.error (JsError.hostError "HDT is read-only - cannot add quads")
    ∧ (d.add k).trace = [] ∧ (d.add k).state = d
    ∧ (d.delete k).result
        = Except.error (JsError.hostError "HDT is read-only - cannot delete quads")
    ∧ (d.delete k).trace = [] ∧ (d.delete k).state = d
    ∧ (∀ k', ((d.add k).state.size k').result = (d.size k').result)
    ∧ (∀ k', ((d.delete k).state.size k').result = (d.size k').result)
    ∧ r.add = Except.error (JsError.hostError "HDT is read-only - cannot add quads")
    ∧ r.delete = Except.error (JsError.hostError "HDT is read-only - cannot delete quads") :=
  ⟨rfl, rfl, rfl, rfl, rfl, rfl, fun _ => rfl, fun _ => rfl, rfl, rfl⟩

/-- C8: when the exact-pattern `match` for a quad's three values succeeds
with result set `ts`, `has(quad)` returns true exactly when some triple of
`ts` matches the quad's three values, and returns false — not an error —
when the pattern matched nothing. -/
theorem c8_has_iff_in_match (d : HdtDatasetCore) (k : Nat) (q : Quad)
    (ts : List StructuredTriple)
    (h : (d.matchOp k (some q.subject) (some q.predicate) (some q.object) none).result
        = Except.ok (HdtMatchResult.mk ts)) :
    ((d.has k q).result = Except.ok true ↔ ∃ t ∈ ts, tripleMatchesQuad t q = true)
    ∧ (ts = [] → (d.has k q).result = Except.ok false) := by
  cases hres : (d.wasm.queryTriples k (termFilter (some q.subject))
      (termFilter (some q.predicate)) (termFilter (some q.object))).result with
  | ok ts' =>
    simp only [HdtDatasetCore.matchOp, graphTruthyNonDefault, Bool.false_eq_true,
      if_false, hres, Except.ok.injEq, HdtMatchResult.mk.injEq] at h
    subst h
    constructor
    · simp [HdtDatasetCore.has, hres, List.any_eq_true]
    · intro hts
      subst hts
      simp [HdtDatasetCore.has, hres]
  | error e =>
    simp only [HdtDatasetCore.matchOp, graphTruthyNonDefault, Bool.false_eq_true,
      if_false, hres] at h
    cases h

/-- In an unconstrained-subject query, the recorded guest call carries the
null-pointer/zero-length sentinel in the subject position. -/
theorem queryTriples_subject_sentinel (g : Guest) (mid k : Nat) (p o : Option String) :
    (queryCallsOf ((HdtWasm.mk (some g) (some mid)).queryTriples k none p o).trace).all
      (fun c => c.subjectPtr = 0 && c.subjectLen = 0) = true := by
  simp only [HdtWasm.queryTriples]
  split
  · simp [queryCallsOf, allocEvt, freeEvt, List.filterMap_append,
      apply_ite (List.filterMap fun e =>
        match e with | Event.callQuery c => some c | _ => none),
      strTruthy, encodeFilter]
  · split
    · simp [queryCallsOf, allocEvt, freeEvt, List.filterMap_append,
        apply_ite (List.filterMap fun e =>
          match e with | Event.callQuery c => some c | _ => none),
        strTruthy, encodeFilter]
    · split <;>
        simp [queryCallsOf, allocEvt, freeEvt, List.filterMap_append,
          apply_ite (List.filterMap fun e =>
            match e with | Event.callQuery c => some c | _ => none),
          strTruthy, encodeFilter]

/-- In an unconstrained-subject count, the recorded guest call carries the
null-pointer/zero-length sentinel in the subject position. -/
theorem countTriples_subject_sentinel (g : Guest) (mid k : Nat) (p o : Option String) :
    (countCallsOf ((HdtWasm.mk (some g) (some mid)).countTriples k none p o).trace).all
      (fun c => c.subjectPtr = 0 && c.subjectLen = 0) = true := by
  simp only [HdtWasm.countTriples]
  split <;>
    simp [countCallsOf, allocEvt, freeEvt, List.filterMap_append,
      apply_ite (List.filterMap fun e =>
        match e with | Event.callCount c => some c | _ => none),
      strTruthy, encodeFilter]

/-- The trace of `has` is the trace of its underlying query, whatever the
outcome. -/
theorem has_trace (d : HdtDatasetCore) (k : Nat) (q : Quad) :
    (d.has k q).trace = (d.wasm.queryTriples k (termFilter (some q.subject))
      (termFilter (some q.predicate)) (termFilter (some q.object))).trace := by
  unfold HdtDatasetCore.has
  cases hres : (d.wasm.queryTriples k (termFilter (some q.subject))
      (termFilter (some q.predicate)) (termFilter (some q.object))).result <;> simp [hres]

/-- An empty-string subject filter behaves exactly like an absent one on the
query path. -/
theorem queryTriples_empty_subject (w : HdtWasm) (k : Nat) (p o : Option String) :
    w.queryTriples k (some "") p o = w.queryTriples k none p o := by
  rcases w with ⟨e, m⟩
  cases e <;> cases m <;> simp [HdtWasm.queryTriples, strTruthy, encodeFilter]

/-- An empty-string predicate filter behaves exactly like an absent one on
the query path. -/
theorem queryTriples_empty_predicate (w : HdtWasm) (k : Nat) (s o : Option String) :
    w.queryTriples k s (some "") o = w.queryTriples k s none o := by
  rcases w with ⟨e, m⟩
  cases e <;> cases m <;> simp [HdtWasm.queryTriples, strTruthy, encodeFilter]

/-- An empty-string object filter behaves exactly like an absent one on the
query path. -/
theorem queryTriples_empty_object (w : HdtWasm) (k : Nat) (s p : Option String) :
    w.queryTriples k s p (some "") = w.queryTriples k s p none := by
  rcases w with ⟨e, m⟩
  cases e <;> cases m <;> simp [HdtWasm.queryTriples, strTruthy, encodeFilter]

/-- An empty-string subject filter behaves exactly like an absent one on the
count path. -/
theorem countTriples_empty_subject (w : HdtWasm) (k : Nat) (p o : Option String) :
    w.countTriples k (some "") p o = w.countTriples k none p o := by
  rcases w with ⟨e, m⟩
  cases e <;> cases m <;> simp [HdtWasm.countTriples, strTruthy, encodeFilter]

/-- An empty-string predicate filter behaves exactly like an absent one on
the count path. -/
theorem countTriples_empty_predicate (w : HdtWasm) (k : Nat) (s o : Option String) :
    w.countTriples k s (some "") o = w.countTriples k s none o := by
  rcases w with ⟨e, m⟩
  cases e <;> cases m <;> simp [HdtWasm.countTriples, strTruthy, encodeFilter]

/-- An empty-string object filter behaves exactly like an absent one on the
count path. -/
theorem countTriples_empty_object (w : HdtWasm) (k : Nat) (s p : Option String) :
    w.countTriples k s p (some "") = w.countTriples k s p none := by
  rcases w with ⟨e, m⟩
  cases e <;> cases m <;> simp [HdtWasm.countTriples, strTruthy, encodeFilter]

/-- A term whose `value` is the empty string collapses to `null` under the
facade's `|| null` filter. -/
theorem termFilter_empty (t : RdfTerm) (ht : t.value = "") : termFilter (some t) = none := by
  simp [termFilter, ht]

/-- C9: decoding a structured Literal with a (truthy) language tag yields a
literal with the same value and language and no explicit datatype; decoding
a Literal with a (truthy) datatype and no language yields a literal with the
same value and datatype and no language; decoding a BlankNode whose value
carries the internal scheme prefix yields a blank node with exactly the
`_:` prefix stripped. -/
theorem c9_structured_term_decode :
    (∀ v lang dt, lang ≠ "" →
      structuredTermToRdfJs (StructuredRdfTerm.literal v (some lang) dt)
        = RdfTerm.literal v (some lang) none)
    ∧ (∀ v dt, dt ≠ "" →
      structuredTermToRdfJs (StructuredRdfTerm.literal v none (some dt))
        = RdfTerm.literal v none (some dt))
    ∧ (∀ id, structuredTermToRdfJs (StructuredRdfTerm.blankNode ("_:" ++ id))
        = RdfTerm.blankNode id) := by
  refine ⟨fun v lang dt hl => ?_, fun v dt hd => ?_, fun id => ?_⟩
  · simp [structuredTermToRdfJs, hl, factory.literalWithLanguage]
  · simp [structuredTermToRdfJs, literalFromDatatypeField, hd,
      factory.literalWithDatatype, factory.namedNode, RdfTerm.value]
  · simp only [structuredTermToRdfJs, factory.blankNode, RdfTerm.blankNode.injEq]
    have h1 : ("_:" ++ id).data = '_' :: ':' :: id.data := by
      simp [String.data_append]
    have h2 : (("_:" ++ id).drop 2).data = (("_:" ++ id).data).drop 2 := by
      simp [String.drop_eq]
    exact String.ext (by rw [h2, h1]; rfl)

/-- C9 (witness): the theorem at a concrete language-tagged literal, a
concrete typed literal and a concrete blank node. -/
theorem c9_structured_term_decode_witness :
    structuredTermToRdfJs (StructuredRdfTerm.literal "hello" (some "en") none)
      = RdfTerm.literal "hello" (some "en") none
    ∧ structuredTermToRdfJs
        (StructuredRdfTerm.literal "5" none (some "http://www.w3.org/2001/XMLSchema#integer"))
      = RdfTerm.literal "5" none (some "http://www.w3.org/2001/XMLSchema#integer")
    ∧ structuredTermToRdfJs (StructuredRdfTerm.blankNode ("_:" ++ "b0"))
      = RdfTerm.blankNode "b0" :=
  ⟨c9_structured_term_decode.1 "hello" "en" none (by decide),
   c9_structured_term_decode.2.1 "5" "http://www.w3.org/2001/XMLSchema#integer" (by decide),
   c9_structured_term_decode.2.2 "b0"⟩

/-- C10: an empty-string filter is treated identically to an absent (null)
filter by every public query operation: it collapses under `|| null` at the
facade, yields identical runs of the query and count paths in every
position, and the collapsed position crosses the boundary as the
null-pointer/zero-length sentinel — so an empty-string constraint can never
mean "match the empty string". -/
theorem c10_empty_filter_collapses
    (w : HdtWasm) (g : Guest) (mid k : Nat) (s p o : Option String)
    (d : HdtDatasetCore) (t : RdfTerm) (ht : t.value = "")
    (pr orr gr : Option RdfTerm) (cache : Option Int) (q : Quad)
    (hq : q.subject.value = "") :
    termFilter (some t) = none
    ∧ w.queryTriples k (some "") p o = w.queryTriples k none p o
    ∧ w.queryTriples k s (some "") o = w.queryTriples k s none o
    ∧ w.queryTriples k s p (some "") = w.queryTriples k s p none
    ∧ w.countTriples k (some "") p o = w.countTriples k none p o
    ∧ w.countTriples k s (some "") o = w.countTriples k s none o
    ∧ w.countTriples k s p (some "") = w.countTriples k s p none
    ∧ d.matchOp k (some t) pr orr gr = d.matchOp k none pr orr gr
    ∧ d.matchOp k pr (some t) orr gr = d.matchOp k pr none orr gr
    ∧ d.matchOp k pr orr (some t) gr = d.matchOp k pr orr none gr
    ∧ d.countMatches k (some t) pr orr = d.countMatches k none pr orr
    ∧ d.countMatches k pr (some t) orr = d.countMatches k pr none orr
    ∧ d.countMatches k pr orr (some t) = d.countMatches k pr orr none
    ∧ d.queryRaw k (some "") p o = d.queryRaw k none p o
    ∧ (queryCallsOf ((HdtWasm.mk (some g) (some mid)).queryTriples k none p o).trace).all
        (fun c => c.subjectPtr = 0 && c.subjectLen = 0) = true
    ∧ (countCallsOf ((HdtWasm.mk (some g) (some mid)).countTriples k none p o).trace).all
        (fun c => c.subjectPtr = 0 && c.subjectLen = 0) = true
    ∧ (queryCallsOf ((HdtDatasetCore.mk (HdtWasm.mk (some g) (some mid)) cache).has k q).trace).all
        (fun c => c.subjectPtr = 0 && c.subjectLen = 0) = true := by
  refine ⟨termFilter_empty t ht,
    queryTriples_empty_subject w k p o,
    queryTriples_empty_predicate w k s o,
    queryTriples_empty_object w k s p,
    countTriples_empty_subject w k p o,
    countTriples_empty_predicate w k s o,
    countTriples_empty_object w k s p,
    ?_, ?_, ?_, ?_, ?_, ?_,
    ?_,
    queryTriples_subject_sentinel g mid k p o,
    countTriples_subject_sentinel g mid k p o,
    ?_⟩
  · simp only [HdtDatasetCore.matchOp, termFilter, ht, if_pos]
  · simp only [HdtDatasetCore.matchOp, termFilter, ht, if_pos]
  · simp only [HdtDatasetCore.matchOp, termFilter, ht, if_pos]
  · simp only [HdtDatasetCore.countMatches, termFilter, ht, if_pos]
  · simp only [HdtDatasetCore.countMatches, termFilter, ht, if_pos]
  · simp only [HdtDatasetCore.countMatches, termFilter, ht, if_pos]
  · simp only [HdtDatasetCore.queryRaw, queryTriples_empty_subject]
  · rw [has_trace, termFilter_empty q.subject hq]
    exact queryTriples_subject_sentinel g mid k _ _

/-- C10 (witness): the theorem at concrete inputs — the empty-valued named
node, a quad with an empty-valued subject, and the concrete guest
`guestOk`. -/
theorem c10_empty_filter_collapses_witness :
    termFilter (some (RdfTerm.namedNode "")) = none
    ∧ (HdtWasm.mk (some guestOk) (some 1)).queryTriples 0 (some "") none none
        = (HdtWasm.mk (some guestOk) (some 1)).queryTriples 0 none none none
    ∧ (HdtWasm.mk (some guestOk) (some 1)).queryTriples 0 none (some "") none
        = (HdtWasm.mk (some guestOk) (some 1)).queryTriples 0 none none none
    ∧ (HdtWasm.mk (some guestOk) (some 1)).queryTriples 0 none none (some "")
        = (HdtWasm.mk (some guestOk) (some 1)).queryTriples 0 none none none
    ∧ (HdtWasm.mk (some guestOk) (some 1)).countTriples 0 (some "") none none
        = (HdtWasm.mk (some guestOk) (some 1)).countTriples 0 none none none
    ∧ (HdtWasm.mk (some guestOk) (some 1)).countTriples 0 none (some "") none
        = (HdtWasm.mk (some guestOk) (some 1)).countTriples 0 none none none
    ∧ (HdtWasm.mk (some guestOk) (some 1)).countTriples 0 none none (some "")
        = (HdtWasm.mk (some guestOk) (some 1)).countTriples 0 none none none
    ∧ dsFresh.matchOp 0 (some (RdfTerm.namedNode "")) none none none
        = dsFresh.matchOp 0 none none none none
    ∧ dsFresh.matchOp 0 none (some (RdfTerm.namedNode "")) none none
        = dsFresh.matchOp 0 none none none none
    ∧ dsFresh.matchOp 0 none none (some (RdfTerm.namedNode "")) none
        = dsFresh.matchOp 0 none none none none
    ∧ dsFresh.countMatches 0 (some (RdfTerm.namedNode "")) none none
        = dsFresh.countMatches 0 none none none
    ∧ dsFresh.countMatches 0 none (some (RdfTerm.namedNode "")) none
        = dsFresh.countMatches 0 none none none
    ∧ dsFresh.countMatches 0 none none (some (RdfTerm.namedNode ""))
        = dsFresh.countMatches 0 none none none
    ∧ dsFresh.queryRaw 0 (some "") none none = dsFresh.queryRaw 0 none none none
    ∧ (queryCallsOf ((HdtWasm.mk (some guestOk) (some 1)).queryTriples 0 none none none).trace).all
        (fun c => c.subjectPtr = 0 && c.subjectLen = 0) = true
    ∧ (countCallsOf ((HdtWasm.mk (some guestOk) (some 1)).countTriples 0 none none none).trace).all
        (fun c => c.subjectPtr = 0 && c.subjectLen = 0) = true
    ∧ (queryCallsOf ((HdtDatasetCore.mk (HdtWasm.mk (some guestOk) (some 1)) none).has 0
          (Quad.mk (RdfTerm.namedNode "") (RdfTerm.namedNode "p") (RdfTerm.namedNode "o")
            RdfTerm.defaultGraph)).trace).all
        (fun c => c.subjectPtr = 0 && c.subjectLen = 0) = true :=
  c10_empty_filter_collapses (HdtWasm.mk (some guestOk) (some 1)) guestOk 1 0 none none none
    dsFresh (RdfTerm.namedNode "") (by decide) none none none none
    (Quad.mk (RdfTerm.namedNode "") (RdfTerm.namedNode "p") (RdfTerm.namedNode "o")
      RdfTerm.defaultGraph) (by decide)

/-- C8 (witness): the theorem at the one-triple guest `guestData` and the
quad with the same three values, whose exact match returns `[tripleABC]`. -/
theorem c8_has_iff_in_match_witness :
    ((dsData.has 0 quadABC).result = Except.ok true
      ↔ ∃ t ∈ [tripleABC], tripleMatchesQuad t quadABC = true)
    ∧ ([tripleABC] = [] → (dsData.has 0 quadABC).result = Except.ok false) :=
  c8_has_iff_in_match dsData 0 quadABC [tripleABC] (by decide)
